import Mathlib

/-!
Verification development for the durable action scheduler core
(`filzl_daemons/tasks.py`): a shallow embedding of `TaskManager`
(`queue_work`, `get_existing_action_execution`, `delegate_done_actions`,
`resolve_future_from_result`) together with the data records it operates on.

Python conventions are embedded explicitly:
- optional strings/ints follow Python truthiness (`None` and `""`/`0` are falsy);
- `asyncio.Future.set_result` / `set_exception` raise `InvalidStateError`
  when the future is already resolved (stdlib-documented behaviour);
- raising is modelled with `Except`.
-/

namespace FilzlDaemons

/-- Errors a Python call can raise. `invalidState` stands for
`asyncio.InvalidStateError`; `valueError` for `ValueError`. -/
inductive PyError where
  | invalidState
  | valueError (msg : String)
deriving DecidableEq, Repr

/-- Modelled from the spec: status values of a queueable record
(`QueableStatus` lives in `filzl_daemons/models.py`, not in the provided
sources; the spec names QUEUED and DONE). -/
inductive QueableStatus where
  | QUEUED
  | IN_PROGRESS
  | DONE
deriving DecidableEq, Repr

/-- Modelled from the spec: `RetryPolicy` (`filzl_daemons/retry.py` is not in
the provided sources; spec section 3 gives fields backoff_seconds,
backoff_factor, jitter). Carried as data; only its fields matter here. -/
structure RetryPolicy where
  backoff_seconds : Nat
  backoff_factor : Nat
  jitter : Nat
deriving DecidableEq, Repr

/-- Modelled from the spec: the persisted `DaemonAction` row (spec section 3
ActionRecord schema; `filzl_daemons/models.py` is not in the provided
sources). `queue_work` constructs exactly these fields. The logical state
token (`CurrentState.state`) is carried as a `String`. -/
structure DaemonAction where
  id : Option Nat
  workflow_name : String
  instance_id : Nat
  state : String
  registry_id : String
  input_body : Option String
  status : QueableStatus
  final_result_id : Option Nat
  retry_backoff_seconds : Nat
  retry_backoff_factor : Nat
  retry_jitter : Nat
deriving DecidableEq, Repr

/-- Modelled from the spec: the persisted `DaemonActionResult` row (spec
section 3 ActionResultRecord schema). -/
structure DaemonActionResult where
  id : Nat
  action_id : Nat
  result_body : Option String
  exception : Option String
  exception_stack : Option String
deriving DecidableEq, Repr

/-- Python truthiness of an `Optional[str]`: `None` and `""` are falsy. -/
def pyTruthyStr : Option String → Bool
  | none => false
  | some s => !(s == "")

/-- Python truthiness of an `Optional[int]`: `None` and `0` are falsy
(used for `if not obj.final_result_id`). -/
def pyTruthyNat : Option Nat → Bool
  | none => false
  | some n => !(n == 0)

/-- Python f-string rendering of an `Optional[str]`: `None` renders as the
text `"None"`. -/
def pyFormatOptStr : Option String → String
  | none => "None"
  | some s => s

/-- An `asyncio.Future` as observed through `set_result` / `set_exception`:
pending, resolved with a value (`BaseModel | None`, the decoded model carried
as a `String`), or resolved with a failure message. -/
inductive FutureState where
  | pending
  | result (value : Option String)
  | failure (msg : String)
deriving DecidableEq, Repr

/-- Embeds `asyncio.Future.set_result`: raises `InvalidStateError` unless pending. -/
def future_set_result (f : FutureState) (v : Option String) :
    Except PyError FutureState :=
  match f with
  | FutureState.pending => Except.ok (FutureState.result v)
  | _ => Except.error PyError.invalidState

/-- Embeds `asyncio.Future.set_exception`: raises `InvalidStateError` unless
pending. The argument is the exception's message text. -/
def future_set_exception (f : FutureState) (msg : String) :
    Except PyError FutureState :=
  match f with
  | FutureState.pending => Except.ok (FutureState.failure msg)
  | _ => Except.error PyError.invalidState

/-- Modelled from the spec: `REGISTRY.get_action_output`
(`filzl_daemons/registry.py` is not in the provided sources; spec section 4.1:
lookup from a registry_id to its output codec, or absent). A codec is the
`model_validate_json` decoder, represented as a function on the serialized
body. -/
def Registry : Type := String → Option (String → String)

/-- The durable store visible to `TaskManager`: `DaemonAction` and
`DaemonActionResult` rows, plus the id the next insert receives. Queries
return the first row matching the `where` clause, in insertion order. -/
structure Ledger where
  actions : List DaemonAction
  results : List DaemonActionResult
  next_action_id : Nat
deriving DecidableEq, Repr

/-- The per-process `TaskManager` world: the shared ledger, the heap of local
`asyncio.Future` objects (a future's identity is its index), and
`wait_signals`, the `dict[int, asyncio.Future]` mapping an action id to the
index of its registered future. -/
structure TMState where
  ledger : Ledger
  futures : List FutureState
  wait_signals : List (Nat × Nat)
deriving DecidableEq, Repr

/-- Python `dict.get`: first binding for the key, if any. -/
def dictGet (m : List (Nat × Nat)) (k : Nat) : Option Nat :=
  (m.find? (fun p => p.fst == k)).map Prod.snd

/-- Python `dict` assignment: overwrite in place if the key is bound, else append
(Python dicts preserve insertion order). -/
def dictSet (m : List (Nat × Nat)) (k v : Nat) : List (Nat × Nat) :=
  if (m.find? (fun p => p.fst == k)).isSome then
    m.map (fun p => if p.fst == k then (k, v) else p)
  else m ++ [(k, v)]

/-- The caller-supplied action descriptor (`ActionExecutionStub`): its
registry id and optional input payload (already serialized). -/
structure ActionExecutionStub where
  registry_id : String
  input_body : Option String
deriving DecidableEq, Repr

/-- Embeds `TaskManager.get_existing_action_execution`: first `DaemonAction` whose
`state` and `instance_id` match, then the first `DaemonActionResult` whose
`action_id` points at it. The `where` clause mentions no other column. -/
def get_existing_action_execution (ledger : Ledger) (instance_id : Nat)
    (state : String) : Option DaemonAction × Option DaemonActionResult :=
  match ledger.actions.find?
      (fun a => a.state == state && a.instance_id == instance_id) with
  | none => (none, none)
  | some act => (some act, ledger.results.find? (fun r => some r.action_id == act.id))

/-- Embeds `TaskManager.resolve_future_from_result`. Looks up the output codec for
`registry_id`; on an exception resolves the future with a failure whose
message is the exception text only (the source carries a TODO about the
missing stack); otherwise: codec and truthy body decode, absent codec
resolves with `None`, codec with falsy body raises `ValueError`. -/
def resolve_future_from_result (registry : Registry) (future : FutureState)
    (registry_id : String) (result : DaemonActionResult) :
    Except PyError FutureState :=
  let action_model := registry registry_id
  if pyTruthyStr result.exception then
    future_set_exception future (pyFormatOptStr result.exception)
  else
    match action_model, pyTruthyStr result.result_body with
    | some codec, true =>
        future_set_result future (some (codec (result.result_body.getD "")))
    | none, _ => future_set_result future none
    | some _, false => Except.error (PyError.valueError "Disallowed response type")

/-- Embeds `TaskManager.queue_work`. Looks up an existing (instance_id, state)
execution; if absent inserts a fresh `DaemonAction` (note the literal retry
fields `1, 1, 1` in the source); fails if the record's id is `None`; if a
result already exists, creates a future, resolves it from the stored result
and returns it unregistered; otherwise creates a fresh pending future,
registers it in `wait_signals` under the action id and returns it. The
returned `Nat` is the future's heap index. -/
def queue_work (registry : Registry) (s : TMState) (task : ActionExecutionStub)
    (state : String) (instance_id : Nat) (queue_name : String)
    (retry : RetryPolicy) : Except PyError (Nat × TMState) :=
  let found := get_existing_action_execution s.ledger instance_id state
  let existing_result := found.2
  let acted : DaemonAction × TMState :=
    match found.1 with
    | some a => (a, s)
    | none =>
        let newAction : DaemonAction :=
          { id := some s.ledger.next_action_id
            workflow_name := queue_name
            instance_id := instance_id
            state := state
            registry_id := task.registry_id
            input_body := task.input_body
            status := QueableStatus.QUEUED
            final_result_id := none
            retry_backoff_seconds := 1
            retry_backoff_factor := 1
            retry_jitter := 1 }
        (newAction,
          { s with ledger :=
              { s.ledger with
                  actions := s.ledger.actions ++ [newAction]
                  next_action_id := s.ledger.next_action_id + 1 } })
  let existing_action := acted.1
  let s1 := acted.2
  match existing_action.id with
  | none => Except.error (PyError.valueError "Action task ID is None")
  | some action_id =>
      match existing_result with
      | some result =>
          match resolve_future_from_result registry FutureState.pending
              task.registry_id result with
          | Except.error e => Except.error e
          | Except.ok fs =>
              Except.ok (s1.futures.length, { s1 with futures := s1.futures ++ [fs] })
      | none =>
          Except.ok (s1.futures.length,
            { s1 with
                futures := s1.futures ++ [FutureState.pending]
                wait_signals := dictSet s1.wait_signals action_id s1.futures.length })

/-- One iteration of the `delegate_done_actions` loop body for a DONE
record id: skip if no future is registered; load the action, skip (warn)
if `final_result_id` is falsy; load the result; on an exception resolve
the future with the combined message text; else resolve through
`resolve_future_from_result` with the record's own `registry_id`. -/
def process_done_action (registry : Registry) (s : TMState)
    (done_id : Nat) : Except PyError TMState :=
  match dictGet s.wait_signals done_id with
  | none => Except.ok s
  | some fref =>
      match s.ledger.actions.find? (fun a => a.id == some done_id) with
      | none => Except.error (PyError.valueError "object not found")
      | some obj =>
          if pyTruthyNat obj.final_result_id then
            match s.ledger.results.find?
                (fun r => some r.id == obj.final_result_id) with
            | none => Except.error (PyError.valueError "result not found")
            | some result_obj =>
                let fut := s.futures.getD fref FutureState.pending
                if pyTruthyStr result_obj.exception then
                  match future_set_exception fut
                      ("Action failed with error: "
                        ++ pyFormatOptStr result_obj.exception ++ " "
                        ++ pyFormatOptStr result_obj.exception_stack) with
                  | Except.ok fs =>
                      Except.ok { s with futures := s.futures.set fref fs }
                  | Except.error e => Except.error e
                else
                  match resolve_future_from_result registry fut
                      obj.registry_id result_obj with
                  | Except.ok fs =>
                      Except.ok { s with futures := s.futures.set fref fs }
                  | Except.error e => Except.error e
          else
            Except.ok s

/-- Embeds the `delegate_done_actions` loop over a finite prefix of the notification
stream: process ids in order; an exception raised for one id propagates
out of the loop, keeping the state reached so far and abandoning the
remaining ids. -/
def delegate_done_actions (registry : Registry) (s : TMState)
    (done_ids : List Nat) : TMState × Option PyError :=
  match done_ids with
  | [] => (s, none)
  | n :: rest =>
      match process_done_action registry s n with
      | Except.ok s' => delegate_done_actions registry s' rest
      | Except.error e => (s, some e)

/-! ## Concrete fixtures used by witnesses and counterexamples -/

/-- A registry with no codec registered at all. -/
def reg0 : Registry := fun _ => none

/-- A registry with distinct codecs for the ids "mine" and "other", so that
which codec decoded a body is visible in the decoded value. -/
def regM : Registry := fun rid =>
  if rid == "mine" then some (fun s => "M" ++ s)
  else if rid == "other" then some (fun s => "O" ++ s)
  else none

/-- A retry policy whose fields coincide with the source's literals. -/
def rp111 : RetryPolicy := ⟨1, 1, 1⟩

/-- A retry policy whose fields differ from the source's literals. -/
def rp523 : RetryPolicy := ⟨5, 2, 3⟩

/-- A task stub for registry id "mine" with no input payload. -/
def taskA : ActionExecutionStub := ⟨"mine", none⟩

/-- An empty world: no records, no futures, no registrations; record ids
start at 1 (database ids are positive). -/
def initState : TMState := ⟨⟨[], [], 1⟩, [], []⟩

/-- A completed action record created under registry id "other". -/
def actW : DaemonAction :=
  { id := some 1
    workflow_name := "q"
    instance_id := 3
    state := "st"
    registry_id := "other"
    input_body := none
    status := QueableStatus.DONE
    final_result_id := some 1
    retry_backoff_seconds := 1
    retry_backoff_factor := 1
    retry_jitter := 1 }

/-- A stored success result for `actW` with body "42". -/
def resW : DaemonActionResult := ⟨1, 1, some "42", none, none⟩

/-- A world holding `actW` with its stored result and no local futures. -/
def sW : TMState := ⟨⟨[actW], [resW], 2⟩, [], []⟩

/-- A stored failure result carrying exception "boom" and stack "trace...". -/
def resBoom : DaemonActionResult := ⟨1, 1, none, some "boom", some "trace..."⟩

/-- A stored success result with a present body but no codec registered for
its consumer ("nope" is unregistered in `reg0` and `regM`). -/
def resPayload : DaemonActionResult := ⟨1, 1, some "payload", none, none⟩

/-- Substring containment on text: `t` occurs inside `s`. -/
def containsText (s t : String) : Prop := ∃ p q, s = p ++ t ++ q

/-- Projection of a `queue_work` outcome onto the post-state, keeping the
pre-state when the call raised. -/
def stateAfter (r : Except PyError (Nat × TMState)) (dflt : TMState) : TMState :=
  match r with
  | Except.ok p => p.2
  | Except.error _ => dflt

/-- First `queue_work` call for the pair (7, "step_a") on an empty world. -/
def c1_call1 : Except PyError (Nat × TMState) :=
  queue_work reg0 initState taskA "step_a" 7 "q" rp111

/-- The world after the first call: one QUEUED record (id 1), one pending
future (index 0) registered under action id 1. -/
def c1_state1 : TMState := stateAfter c1_call1 initState

/-- Second `queue_work` call for the same pair, before any drain cycle. -/
def c1_call2 : Except PyError (Nat × TMState) :=
  queue_work reg0 c1_state1 taskA "step_a" 7 "q" rp111

/-- The record the first call inserted. -/
def c1_record : DaemonAction :=
  { id := some 1
    workflow_name := "q"
    instance_id := 7
    state := "step_a"
    registry_id := "mine"
    input_body := none
    status := QueableStatus.QUEUED
    final_result_id := none
    retry_backoff_seconds := 1
    retry_backoff_factor := 1
    retry_jitter := 1 }

/-! ## Claim C1 -/

/-- Claim C1, counterexample. On the concrete pair (7, "step_a"): after the
first `queue_work` call an ActionRecord exists with no result and the
returned handle (index 0) is registered under the record's id 1; yet the
second `queue_work` call returns handle index 1, a different future object —
not the handle the first call returned. -/
theorem C1_counterexample :
    (get_existing_action_execution c1_state1.ledger 7 "step_a").1 = some c1_record ∧
    (get_existing_action_execution c1_state1.ledger 7 "step_a").2 = none ∧
    c1_call1.map Prod.fst = Except.ok 0 ∧
    dictGet c1_state1.wait_signals 1 = some 0 ∧
    c1_call2.map Prod.fst = Except.ok 1 ∧
    (1 : Nat) ≠ 0 := by
  refine ⟨rfl, rfl, rfl, rfl, rfl, by decide⟩

/-- Claim C1, amended: when an ActionRecord exists for (instance_id, state)
with no result yet, a repeated `queue_work` call does not insert a new
record, but it returns a freshly created pending WaitHandle (a new future,
index `s.futures.length`) and registers it under the record's id, replacing
whatever handle was registered there before — it does not return the
previously registered handle. -/
theorem C1_theorem (registry : Registry) (s : TMState)
    (task : ActionExecutionStub) (state : String) (instance_id : Nat)
    (queue_name : String) (retry : RetryPolicy) (a : DaemonAction) (aid : Nat)
    (hfind : get_existing_action_execution s.ledger instance_id state = (some a, none))
    (hid : a.id = some aid) :
    queue_work registry s task state instance_id queue_name retry =
      Except.ok (s.futures.length,
        { s with
            futures := s.futures ++ [FutureState.pending]
            wait_signals := dictSet s.wait_signals aid s.futures.length }) := by
  simp [queue_work, hfind, hid]

/-- Claim C1, witness: the amended statement applied to the concrete world
after the first call. -/
theorem C1_witness :
    queue_work reg0 c1_state1 taskA "step_a" 7 "q" rp111 =
      Except.ok (1,
        { c1_state1 with
            futures := c1_state1.futures ++ [FutureState.pending]
            wait_signals := dictSet c1_state1.wait_signals 1 1 }) :=
  C1_theorem reg0 c1_state1 taskA "step_a" 7 "q" rp111 c1_record 1 (by decide) (by decide)


/-! ## Claim C2 -/

/-- Claim C2, code evaluation at the failing input. `queue_work` is given the
retry policy (5, 2, 3) on an empty ledger; the single inserted ActionRecord
carries retry fields (1, 1, 1) — the source ignores its `retry` parameter
and writes the literals 1, 1, 1. -/
theorem C2_code_eval :
    (queue_work reg0 initState taskA "step_a" 7 "q" rp523).map
        (fun p => p.2.ledger.actions.map
          (fun a => (a.retry_backoff_seconds, a.retry_backoff_factor, a.retry_jitter))) =
      Except.ok [(1, 1, 1)] ∧
    (rp523.backoff_seconds, rp523.backoff_factor, rp523.jitter) = (5, 2, 3) :=
  ⟨rfl, rfl⟩

/-! ## Claim C3 -/

/-- A world in which action id 1 is DONE with a stored result, and the future
registered for it (index 0, still in `wait_signals`) has already been
resolved by an earlier drain cycle. -/
def sDup : TMState :=
  ⟨⟨[actW], [resW], 2⟩, [FutureState.result (some "v")], [(1, 0)]⟩

/-- Claim C3, code evaluation at the failing input. A duplicate DONE
notification for action id 1, whose registered handle is already resolved,
is not a safe no-op: `delegate_done_actions`'s loop body raises
`InvalidStateError` from `Future.set_result` on the already-resolved future
(the registration is never removed from `wait_signals`, so the duplicate is
not filtered out). -/
theorem C3_code_eval :
    sDup.futures.getD 0 FutureState.pending = FutureState.result (some "v") ∧
    dictGet sDup.wait_signals 1 = some 0 ∧
    process_done_action regM sDup 1 = Except.error PyError.invalidState ∧
    delegate_done_actions regM sDup [1] = (sDup, some PyError.invalidState) :=
  ⟨rfl, rfl, rfl, rfl⟩

/-! ## Claim C4 -/

/-- Claim C4, counterexample. A result record without exception whose
`result_body` is present ("payload"), for a registry_id with no registered
codec: resolving the WaitHandle does not raise — it resolves the handle
with an absent value (`None`). -/
theorem C4_counterexample :
    reg0 "nope" = none ∧
    resPayload.result_body = some "payload" ∧
    resPayload.exception = none ∧
    resolve_future_from_result reg0 FutureState.pending "nope" resPayload =
      Except.ok (FutureState.result none) :=
  ⟨rfl, rfl, rfl, rfl⟩

/-- Claim C4, amended: when no output codec is registered for the action's
registry_id and the stored result carries no exception, resolving the
WaitHandle never raises: it resolves the handle with an absent value, even
when a result body is present. (The decode-time inconsistency that raises
is the converse case: codec registered but body absent.) -/
theorem C4_theorem (registry : Registry) (rid : String) (r : DaemonActionResult)
    (hreg : registry rid = none) (hexc : pyTruthyStr r.exception = false) :
    resolve_future_from_result registry FutureState.pending rid r =
      Except.ok (FutureState.result none) := by
  cases hb : pyTruthyStr r.result_body <;>
    simp [resolve_future_from_result, hreg, hexc, hb, future_set_result]

/-- Claim C4, witness: the amended statement applied at the concrete
unregistered id "nope" and the body-carrying result `resPayload`. -/
theorem C4_witness :
    resolve_future_from_result reg0 FutureState.pending "nope" resPayload =
      Except.ok (FutureState.result none) :=
  C4_theorem reg0 "nope" resPayload rfl rfl

/-! ## Claim C5 -/

/-- A world whose single DONE action (id 1, registry "mine") points at the
failure result `resBoom`. -/
def sB : TMState :=
  ⟨⟨[{ actW with registry_id := "mine" }], [resBoom], 2⟩,
    [FutureState.pending], [(1, 0)]⟩

/-- Claim C5, code evaluation at the failing input. On the `queue_work` fast
path (`resolve_future_from_result`), a stored failure with exception "boom"
and stack "trace..." resolves the handle with the message "boom" alone; the
stack text is not contained in it (the source's TODO). The drain-loop path,
by contrast, does produce a message containing both texts. -/
theorem C5_code_eval :
    resolve_future_from_result regM FutureState.pending "mine" resBoom =
      Except.ok (FutureState.failure "boom") ∧
    ¬ containsText "boom" "trace..." ∧
    (process_done_action regM sB 1).map
        (fun s => s.futures.getD 0 FutureState.pending) =
      Except.ok (FutureState.failure "Action failed with error: boom trace...") ∧
    containsText "Action failed with error: boom trace..." "boom" ∧
    containsText "Action failed with error: boom trace..." "trace..." := by
  refine ⟨rfl, ?_, rfl, ?_, ?_⟩
  · rintro ⟨p, q, h⟩
    have hl := congrArg String.length h
    rw [String.length_append, String.length_append] at hl
    have h1 : ("boom").length = 4 := rfl
    have h2 : ("trace...").length = 8 := rfl
    rw [h1, h2] at hl
    omega
  · exact ⟨"Action failed with error: ", " trace...", rfl⟩
  · exact ⟨"Action failed with error: boom ", "", rfl⟩

/-! ## Claim C6 -/

/-- Two DONE records with registered pending futures: action id 1 points at
a result with a registered codec but an absent body (the fatal decode
inconsistency); action id 2 points at a normal success result. -/
def s6 : TMState :=
  ⟨⟨[{ actW with state := "s1", registry_id := "mine" },
     { actW with id := some 2, state := "s2", registry_id := "mine", final_result_id := some 2 }],
    [⟨1, 1, none, none, none⟩, ⟨2, 2, some "ok", none, none⟩], 3⟩,
   [FutureState.pending, FutureState.pending], [(1, 0), (2, 1)]⟩

/-- Claim C6, code evaluation at the failing input. Draining the two DONE
notifications [1, 2]: the fatal decode error on notification 1 propagates
out of the loop and notification 2 is never processed — its handle (index 1)
is still pending afterwards — although processing notification 2 alone
would have resolved it with the decoded value. The error is not isolated
per-notification. -/
theorem C6_code_eval :
    delegate_done_actions regM s6 [1, 2] =
      (s6, some (PyError.valueError "Disallowed response type")) ∧
    s6.futures.getD 1 FutureState.pending = FutureState.pending ∧
    (process_done_action regM s6 2).map
        (fun s => s.futures.getD 1 FutureState.pending) =
      Except.ok (FutureState.result (some "Mok")) :=
  ⟨rfl, rfl, rfl⟩


/-! ## Claim C7 -/

/-- Claim C7: resolving a pending WaitHandle from an exception-free result is
determined exactly by codec and body presence — codec registered and body
present (truthy) decodes the body with the codec; no codec registered
resolves with an absent value; codec registered with body absent raises
`ValueError` and the handle is not resolved. -/
theorem C7_theorem (registry : Registry) (rid : String) (r : DaemonActionResult)
    (hexc : pyTruthyStr r.exception = false) :
    (∀ codec body, registry rid = some codec → r.result_body = some body →
      body ≠ "" →
        resolve_future_from_result registry FutureState.pending rid r =
          Except.ok (FutureState.result (some (codec body)))) ∧
    (registry rid = none →
        resolve_future_from_result registry FutureState.pending rid r =
          Except.ok (FutureState.result none)) ∧
    (∀ codec, registry rid = some codec → pyTruthyStr r.result_body = false →
        resolve_future_from_result registry FutureState.pending rid r =
          Except.error (PyError.valueError "Disallowed response type")) := by
  refine ⟨?_, ?_, ?_⟩
  · intro codec body hreg hbody hne
    have hb : pyTruthyStr (some body) = true := by simp [pyTruthyStr, hne]
    simp [resolve_future_from_result, hexc, hreg, hbody, hb, future_set_result]
  · intro hreg
    cases hb : pyTruthyStr r.result_body <;>
      simp [resolve_future_from_result, hexc, hreg, hb, future_set_result]
  · intro codec hreg hb
    simp [resolve_future_from_result, hexc, hreg, hb]

/-- Claim C7, witness: codec registered for "mine" and body "42" present
decode to "M42" on the stored result `resW`. -/
theorem C7_witness :
    resolve_future_from_result regM FutureState.pending "mine" resW =
      Except.ok (FutureState.result (some "M42")) :=
  (C7_theorem regM "mine" resW rfl).1 (fun s => "M" ++ s) "42" rfl rfl (by decide)

/-! ## Helper lemmas shared by the fast-path claims -/

/-- Resolving a pending future, when it returns at all, returns a
non-pending (resolved) future. -/
theorem resolve_ok_ne_pending (registry : Registry) (rid : String)
    (r : DaemonActionResult) (fs : FutureState)
    (hok : resolve_future_from_result registry FutureState.pending rid r =
      Except.ok fs) : fs ≠ FutureState.pending := by
  simp only [resolve_future_from_result] at hok
  split at hok
  · simp [future_set_exception] at hok
    simp [← hok]
  · split at hok
    · simp [future_set_result] at hok
      simp [← hok]
    · simp [future_set_result] at hok
      simp [← hok]
    · simp at hok


/-! ## Claim C9 -/

/-- Claim C9: when an ActionRecord and a stored result already exist for the
pair, a `queue_work` call that returns does so with a handle that is already
resolved from that stored result (the freshly appended future is exactly the
outcome of resolving a pending future from the record, and is not pending),
while `wait_signals` — the local wait-handle map — and the ledger are left
unchanged: the fast-path handle is never registered. -/
theorem C9_theorem (registry : Registry) (s : TMState)
    (task : ActionExecutionStub) (state : String) (instance_id : Nat)
    (queue_name : String) (retry : RetryPolicy)
    (a : DaemonAction) (res : DaemonActionResult) (h : Nat) (s' : TMState)
    (hfind : get_existing_action_execution s.ledger instance_id state = (some a, some res))
    (hok : queue_work registry s task state instance_id queue_name retry =
      Except.ok (h, s')) :
    s'.wait_signals = s.wait_signals ∧
    s'.ledger = s.ledger ∧
    h = s.futures.length ∧
    ∃ fs, resolve_future_from_result registry FutureState.pending
        task.registry_id res = Except.ok fs ∧
      s'.futures = s.futures ++ [fs] ∧ fs ≠ FutureState.pending := by
  simp only [queue_work, hfind] at hok
  cases hid : a.id with
  | none => rw [hid] at hok; simp at hok
  | some aid =>
    rw [hid] at hok
    cases hres : resolve_future_from_result registry FutureState.pending
        task.registry_id res with
    | error e => rw [hres] at hok; simp at hok
    | ok fs =>
      rw [hres] at hok
      simp only [Except.ok.injEq, Prod.mk.injEq] at hok
      obtain ⟨hh, hs⟩ := hok
      subst hs
      exact ⟨rfl, rfl, hh.symm, fs, rfl, rfl, resolve_ok_ne_pending _ _ _ _ hres⟩

/-- The world `sW` after its fast-path call: the single appended future is
resolved with the "mine"-codec decode of the stored body. -/
def s9after : TMState := { sW with futures := [FutureState.result (some "M42")] }

/-- Claim C9, witness: the fast-path call on the concrete world `sW`. -/
theorem C9_witness :
    s9after.wait_signals = sW.wait_signals ∧
    s9after.ledger = sW.ledger ∧
    (0 : Nat) = sW.futures.length ∧
    ∃ fs, resolve_future_from_result regM FutureState.pending
        taskA.registry_id resW = Except.ok fs ∧
      s9after.futures = sW.futures ++ [fs] ∧ fs ≠ FutureState.pending :=
  C9_theorem regM sW taskA "st" 3 "q" rp111 actW resW 0 s9after (by decide) rfl

/-! ## Claim C10 -/

/-- The dedup lookup inspects only the `state` and `instance_id` columns:
its first component is literally the first record matching that pair. -/
theorem get_existing_fst (ledger : Ledger) (instance_id : Nat) (state : String) :
    (get_existing_action_execution ledger instance_id state).1 =
      ledger.actions.find?
        (fun a => a.state == state && a.instance_id == instance_id) := by
  unfold get_existing_action_execution
  cases ledger.actions.find?
      (fun a => a.state == state && a.instance_id == instance_id) <;> rfl

/-- Claim C10: the dedup lookup matches on (instance_id, state) only — its
result is the first pair-matching record, whatever its registry_id or
workflow name — and a `queue_work` call whose task carries a different
registry_id than the adopted record still inserts nothing and, on the fast
path, decodes the stored result with the calling task's registry_id rather
than the adopted record's. -/
theorem C10_theorem (registry : Registry) (s : TMState)
    (task : ActionExecutionStub) (state : String) (instance_id : Nat)
    (queue_name : String) (retry : RetryPolicy)
    (a : DaemonAction) (res : DaemonActionResult) (h : Nat) (s' : TMState)
    (hfind : get_existing_action_execution s.ledger instance_id state = (some a, some res))
    (hdiff : a.registry_id ≠ task.registry_id ∨ a.workflow_name ≠ queue_name)
    (hok : queue_work registry s task state instance_id queue_name retry =
      Except.ok (h, s')) :
    (get_existing_action_execution s.ledger instance_id state).1 =
      s.ledger.actions.find?
        (fun x => x.state == state && x.instance_id == instance_id) ∧
    s'.ledger.actions = s.ledger.actions ∧
    ∃ fs, resolve_future_from_result registry FutureState.pending
        task.registry_id res = Except.ok fs ∧
      s'.futures = s.futures ++ [fs] := by
  refine ⟨get_existing_fst s.ledger instance_id state, ?_⟩
  simp only [queue_work, hfind] at hok
  cases hid : a.id with
  | none => rw [hid] at hok; simp at hok
  | some aid =>
    rw [hid] at hok
    cases hres : resolve_future_from_result registry FutureState.pending
        task.registry_id res with
    | error e => rw [hres] at hok; simp at hok
    | ok fs =>
      rw [hres] at hok
      simp only [Except.ok.injEq, Prod.mk.injEq] at hok
      obtain ⟨hh, hs⟩ := hok
      subst hs
      exact ⟨rfl, fs, rfl, rfl⟩

/-- Claim C10, witness: the record `actW` was created under registry id
"other", yet the call with task registry id "mine" adopts it and the stored
body decodes through the "mine" codec. -/
theorem C10_witness :
    (get_existing_action_execution sW.ledger 3 "st").1 =
      sW.ledger.actions.find? (fun x => x.state == "st" && x.instance_id == 3) ∧
    s9after.ledger.actions = sW.ledger.actions ∧
    ∃ fs, resolve_future_from_result regM FutureState.pending
        taskA.registry_id resW = Except.ok fs ∧
      s9after.futures = sW.futures ++ [fs] :=
  C10_theorem regM sW taskA "st" 3 "q" rp111 actW resW 0 s9after (by decide)
    (Or.inl (by decide)) rfl


/-! ## Claim C8 -/

/-- Number of ledger records for a dedup pair (instance_id, state). -/
def pairCount (l : Ledger) (instance_id : Nat) (state : String) : Nat :=
  (l.actions.filter
    (fun a => a.state == state && a.instance_id == instance_id)).length

/-- The per-call arguments of one `queue_work` invocation that may vary
between repetitions for a fixed (instance_id, state) pair. -/
structure QueueCall where
  task : ActionExecutionStub
  queue_name : String
  retry : RetryPolicy

/-- The world after one `queue_work` call (the pre-world if the call
raised: a raising call performs no insert either). -/
def queue_work_state (registry : Registry) (s : TMState) (c : QueueCall)
    (state : String) (instance_id : Nat) : TMState :=
  stateAfter (queue_work registry s c.task state instance_id c.queue_name c.retry) s

/-- Sequential (non-concurrent) repetition of `queue_work` calls for one
fixed (instance_id, state) pair. -/
def queue_work_seq (registry : Registry) (instance_id : Nat) (state : String)
    (s : TMState) (calls : List QueueCall) : TMState :=
  match calls with
  | [] => s
  | c :: rest =>
      queue_work_seq registry instance_id state
        (queue_work_state registry s c state instance_id) rest

/-- A pair has no record exactly when the dedup lookup's `find?` misses. -/
theorem pairCount_zero_iff (l : Ledger) (instance_id : Nat) (state : String) :
    pairCount l instance_id state = 0 ↔
      l.actions.find?
        (fun a => a.state == state && a.instance_id == instance_id) = none := by
  simp [pairCount, List.length_eq_zero, List.filter_eq_nil_iff, List.find?_eq_none]

/-- When the dedup lookup finds a record, the call — whether it returns a
registered handle, a fast-path handle, or raises — leaves the ledger
untouched: no insert happens. -/
theorem queue_work_found_ledger (registry : Registry) (s : TMState)
    (task : ActionExecutionStub) (state : String) (instance_id : Nat)
    (queue_name : String) (retry : RetryPolicy) (a : DaemonAction)
    (hfind : s.ledger.actions.find?
      (fun x => x.state == state && x.instance_id == instance_id) = some a) :
    (stateAfter (queue_work registry s task state instance_id queue_name retry) s).ledger
      = s.ledger := by
  have hge : get_existing_action_execution s.ledger instance_id state =
      (some a, s.ledger.results.find? (fun r => some r.action_id == a.id)) := by
    unfold get_existing_action_execution
    rw [hfind]
  cases hid : a.id with
  | none => simp [stateAfter, queue_work, hge, hid]
  | some aid =>
    cases hres : s.ledger.results.find? (fun r => r.action_id == aid) with
    | none => simp [stateAfter, queue_work, hge, hid, hres]
    | some res =>
      cases hr2 : resolve_future_from_result registry FutureState.pending
          task.registry_id res with
      | ok fs => simp [stateAfter, queue_work, hge, hid, hres, hr2]
      | error e => simp [stateAfter, queue_work, hge, hid, hres, hr2]

/-- When the dedup lookup misses, the call inserts exactly one record for
the pair. -/
theorem queue_work_insert_pairCount (registry : Registry) (s : TMState)
    (task : ActionExecutionStub) (state : String) (instance_id : Nat)
    (queue_name : String) (retry : RetryPolicy)
    (hfind : s.ledger.actions.find?
      (fun x => x.state == state && x.instance_id == instance_id) = none) :
    pairCount
        (stateAfter (queue_work registry s task state instance_id queue_name retry) s).ledger
        instance_id state
      = pairCount s.ledger instance_id state + 1 := by
  have hge : get_existing_action_execution s.ledger instance_id state = (none, none) := by
    unfold get_existing_action_execution
    rw [hfind]
  simp [stateAfter, queue_work, hge, pairCount, List.filter_append]

/-- Claim C8: starting from a world holding at most one ActionRecord for the
pair, any sequential repetition of `queue_work` calls for that pair keeps
the count at most one; and once a record exists, the whole repetition
performs no insert at all — the ledger's action list is unchanged. -/
theorem C8_theorem (registry : Registry) (instance_id : Nat) (state : String)
    (s : TMState) (calls : List QueueCall)
    (h : pairCount s.ledger instance_id state ≤ 1) :
    pairCount (queue_work_seq registry instance_id state s calls).ledger
        instance_id state ≤ 1 ∧
    (pairCount s.ledger instance_id state = 1 →
      (queue_work_seq registry instance_id state s calls).ledger.actions
        = s.ledger.actions) := by
  induction calls generalizing s with
  | nil => exact ⟨h, fun _ => rfl⟩
  | cons c rest ih =>
    rcases Nat.lt_or_ge (pairCount s.ledger instance_id state) 1 with h0 | h1
    · have hz : pairCount s.ledger instance_id state = 0 := by omega
      have hfind := (pairCount_zero_iff s.ledger instance_id state).mp hz
      have hstep := queue_work_insert_pairCount registry s c.task state instance_id
        c.queue_name c.retry hfind
      have hone : pairCount (queue_work_state registry s c state instance_id).ledger
          instance_id state = 1 := by
        unfold queue_work_state
        omega
      have ihh := ih (queue_work_state registry s c state instance_id) (le_of_eq hone)
      exact ⟨ihh.1, fun hcontra => absurd hcontra (by omega)⟩
    · have hone : pairCount s.ledger instance_id state = 1 := le_antisymm h h1
      obtain ⟨a, ha⟩ : ∃ a, s.ledger.actions.find?
          (fun x => x.state == state && x.instance_id == instance_id) = some a := by
        cases hof : s.ledger.actions.find?
            (fun x => x.state == state && x.instance_id == instance_id) with
        | none =>
            exact absurd ((pairCount_zero_iff s.ledger instance_id state).mpr hof)
              (by omega)
        | some a => exact ⟨a, rfl⟩
      have hled := queue_work_found_ledger registry s c.task state instance_id
        c.queue_name c.retry a ha
      have hls : (queue_work_state registry s c state instance_id).ledger = s.ledger := hled
      have ihh := ih (queue_work_state registry s c state instance_id)
        (by rw [hls]; exact h)
      refine ⟨ihh.1, fun _ => ?_⟩
      have h2 := ihh.2 (by rw [hls]; exact hone)
      calc (queue_work_seq registry instance_id state s (c :: rest)).ledger.actions
          = (queue_work_seq registry instance_id state
              (queue_work_state registry s c state instance_id) rest).ledger.actions := rfl
        _ = (queue_work_state registry s c state instance_id).ledger.actions := h2
        _ = s.ledger.actions := by rw [hls]

/-- A fixed repetition argument for the witness. -/
def qcA : QueueCall := ⟨taskA, "q", rp111⟩

/-- Claim C8, witness: three sequential calls for the pair (7, "step_a") on
an empty world leave at most one record for the pair. -/
theorem C8_witness :
    pairCount (queue_work_seq reg0 7 "step_a" initState [qcA, qcA, qcA]).ledger
        7 "step_a" ≤ 1 ∧
    (pairCount initState.ledger 7 "step_a" = 1 →
      (queue_work_seq reg0 7 "step_a" initState [qcA, qcA, qcA]).ledger.actions
        = initState.ledger.actions) :=
  C8_theorem reg0 7 "step_a" initState [qcA, qcA, qcA] (by decide)

end FilzlDaemons
